import Mathlib

/-!
Shallow embedding of the core readable-stream operations of the
web-streams-polyfill repository: the ECMAScript abstract operations
(`IsDetachedBuffer`, `CanTransferArrayBuffer`, `CreateArrayFromList`),
the `IsNonNegativeNumber` predicate, the `ReadableStream` lifecycle
operations (`ReadableStreamClose`, `ReadableStreamError`,
`ReadableStreamCancel`), the constructor dispatch, the lock checks of
`pipeTo` / `pipeThrough`, and the teeing algorithm's pull and cancel
algorithms.  JavaScript numbers are modelled as an inductive with NaN
and the two infinities over exact rationals; promises are modelled by
their settled outcomes; the asynchronous tee algorithms are modelled
as explicit state transformers recording the externally observable
calls they make.
-/

namespace WebStreams

/-- A JavaScript number: NaN, the two infinities, or a finite value
(modelled exactly as a rational). -/
inductive JSNum where
  | nan
  | posInf
  | negInf
  | finite (q : ℚ)
deriving DecidableEq, Repr

/-- `Number.isNaN` (stub/number-isnan): true exactly on NaN. -/
def NumberIsNaN : JSNum → Bool
  | .nan => true
  | _ => false

/-- JavaScript `<` on numbers: any comparison involving NaN is false;
`-Infinity` is below everything else, `+Infinity` above everything else. -/
def jsLt : JSNum → JSNum → Bool
  | .nan, _ => false
  | _, .nan => false
  | .negInf, .negInf => false
  | .negInf, _ => true
  | _, .negInf => false
  | .posInf, _ => false
  | _, .posInf => true
  | .finite a, .finite b => decide (a < b)

/-- A JavaScript value as far as `typeof`-dispatch is concerned:
`undefined`, `null`, a boolean, a string, an object, or a number. -/
inductive JSVal where
  | undef
  | null
  | boolean (b : Bool)
  | string (s : String)
  | object
  | num (n : JSNum)
deriving DecidableEq, Repr

/-- `typeof v === 'number'`. -/
def jsTypeofIsNumber : JSVal → Bool
  | .num _ => true
  | _ => false

/-- `IsNonNegativeNumber` from abstract-ops/miscellaneous: rejects
non-numbers, NaN, and numbers below zero; accepts the rest. -/
def IsNonNegativeNumber (v : JSVal) : Bool :=
  match v with
  | .num n =>
    if NumberIsNaN n then false
    else if jsLt n (.finite 0) then false
    else true
  | _ => false

/-- An `ArrayBuffer` as seen through this interface: only its byte
length is observable to the detachment test. -/
structure ArrayBufferM where
  byteLength : Nat
deriving DecidableEq, Repr

/-- `IsDetachedBuffer` from abstract-ops/ecmascript: classifies a
buffer as detached exactly when its byte length is zero (the source
itself marks this "Not implemented correctly"). -/
def IsDetachedBuffer (O : ArrayBufferM) : Bool :=
  O.byteLength == 0

/-- `CanTransferArrayBuffer`: the negation of `IsDetachedBuffer`. -/
def CanTransferArrayBuffer (O : ArrayBufferM) : Bool :=
  !(IsDetachedBuffer O)

/-- `CreateArrayFromList` / `createArrayFromList`: lists are arrays,
the operation is a defensive slice, i.e. the identity on the list. -/
def createArrayFromList (elements : List β) : List β :=
  elements

/-- The settled outcome of a promise: fulfilled with a value or
rejected with a cause. -/
inductive Settled (ε : Type u) (α : Type v) where
  | fulfilled (a : α)
  | rejected (e : ε)
deriving DecidableEq, Repr

/-- The state of a reader's closed promise: still pending, resolved
(with undefined), or rejected with a cause. -/
inductive PromiseState (ε : Type u) where
  | pending
  | resolvedUndef
  | rejected (e : ε)
deriving DecidableEq, Repr

/-- The result object of a read: `{ value, done }`. -/
structure ReadResultRec (α : Type u) where
  value : Option α
  done : Bool
deriving DecidableEq, Repr

/-- Modelled from the spec: `ReadableStreamCreateReadResult`
(src/lib/readable-stream/generic-reader.ts is not under src/).  It
builds the `{ value, done }` record handed to a read request; the
`forAuthorCode` flag only affects the record's prototype, which is not
observable here. -/
def ReadableStreamCreateReadResult (value : Option α) (done : Bool)
    (_forAuthorCode : Bool) : ReadResultRec α :=
  { value := value, done := done }

/-- A default reader: its FIFO queue of pending read requests
(identified by tokens), its closed promise, and its `_forAuthorCode`
flag. -/
structure DefaultReaderSt (ε : Type u) where
  readRequests : List Nat
  closedPromise : PromiseState ε
  forAuthorCode : Bool
deriving DecidableEq, Repr

/-- A BYOB (zero-copy) reader: its FIFO queue of pending read-into
requests and its closed promise. -/
structure BYOBReaderSt (ε : Type u) where
  readIntoRequests : List Nat
  closedPromise : PromiseState ε
deriving DecidableEq, Repr

/-- A reader attached to a stream is either a default reader or a
BYOB reader. -/
inductive ReaderSt (ε : Type u) where
  | default (r : DefaultReaderSt ε)
  | byob (r : BYOBReaderSt ε)
deriving DecidableEq, Repr

/-- The three states of a readable stream. -/
inductive RState where
  | readable
  | closed
  | errored
deriving DecidableEq, Repr

/-- A readable stream: its state, stored error, disturbed flag, and
optional attached reader.  `storedError` always holds some value of
the error type (JavaScript initializes it to `undefined`, itself a
value). -/
structure RStream (ε : Type u) where
  state : RState
  storedError : ε
  disturbed : Bool
  reader : Option (ReaderSt ε)
deriving DecidableEq, Repr

/-- `IsReadableStreamLocked`: a stream is locked exactly when a
reader is attached. -/
def IsReadableStreamLocked (stream : RStream ε) : Bool :=
  stream.reader.isSome

/-- How one pending request was settled: fulfilled with a read result
or rejected with a cause. -/
inductive ReqSettlement (ε : Type u) (α : Type v) where
  | fulfilled (id : Nat) (res : ReadResultRec α)
  | rejected (id : Nat) (e : ε)
deriving DecidableEq, Repr

/-- `ReadableStreamClose`: flips the state to closed; with a default
reader attached, fulfills every pending read request in FIFO order
with `{ value: undefined, done: true }` and empties the queue; for
any attached reader, resolves its closed promise.  Returns the new
stream and the list of request settlements performed, in order. -/
def ReadableStreamClose (stream : RStream ε) :
    RStream ε × List (ReqSettlement ε α) :=
  let stream1 : RStream ε := { stream with state := .closed }
  match stream1.reader with
  | none => (stream1, [])
  | some (.default r) =>
    let settlements := r.readRequests.map fun id =>
      ReqSettlement.fulfilled id
        (ReadableStreamCreateReadResult none true r.forAuthorCode)
    let r1 : DefaultReaderSt ε :=
      { r with readRequests := [], closedPromise := .resolvedUndef }
    ({ stream1 with reader := some (.default r1) }, settlements)
  | some (.byob r) =>
    let r1 : BYOBReaderSt ε := { r with closedPromise := .resolvedUndef }
    ({ stream1 with reader := some (.byob r1) }, [])

/-- `ReadableStreamError`: flips the state to errored and stores the
cause; rejects every pending read request (default reader) or
read-into request (BYOB reader) with that cause in FIFO order,
empties the queue, and rejects the reader's closed promise with the
same cause. -/
def ReadableStreamError (stream : RStream ε) (e : ε) :
    RStream ε × List (ReqSettlement ε α) :=
  let stream1 : RStream ε := { stream with state := .errored, storedError := e }
  match stream1.reader with
  | none => (stream1, [])
  | some (.default r) =>
    let settlements := r.readRequests.map fun id => ReqSettlement.rejected id e
    let r1 : DefaultReaderSt ε :=
      { r with readRequests := [], closedPromise := .rejected e }
    ({ stream1 with reader := some (.default r1) }, settlements)
  | some (.byob r) =>
    let settlements := r.readIntoRequests.map fun id => ReqSettlement.rejected id e
    let r1 : BYOBReaderSt ε :=
      { r with readIntoRequests := [], closedPromise := .rejected e }
    ({ stream1 with reader := some (.byob r1) }, settlements)

/-- `transformPromiseWith(p, noop)`: adopts a rejection unchanged and
maps any fulfillment value to `undefined`. -/
def transformPromiseWithNoop : Settled ε α → Settled ε Unit
  | .fulfilled _ => .fulfilled ()
  | .rejected e => .rejected e

/-- The observable effect of `ReadableStreamCancel`: the updated
stream, the settlements of pending requests performed by the inner
`ReadableStreamClose`, the reasons forwarded to the controller's
cancel algorithm (`CancelSteps`), and the settled outcome of the
returned promise. -/
structure CancelEffect (ε : Type u) (α : Type v) (ρ : Type w) where
  stream : RStream ε
  settlements : List (ReqSettlement ε α)
  forwardedReasons : List ρ
  result : Settled ε Unit
deriving Repr

/-- `ReadableStreamCancel`: sets `disturbed` first, unconditionally;
on a closed stream returns a promise fulfilled with undefined, on an
errored stream a promise rejected with the stored error — in both
cases without touching the controller.  On a readable stream it first
runs `ReadableStreamClose`, then forwards the reason to the
controller's cancel algorithm (whose settled outcome is the parameter
`cancelAlg`) and returns `transformPromiseWith(sourceCancelPromise,
noop)`. -/
def ReadableStreamCancel (stream : RStream ε) (reason : ρ)
    (cancelAlg : ρ → Settled ε υ) : CancelEffect ε α ρ :=
  let stream1 : RStream ε := { stream with disturbed := true }
  match stream1.state with
  | .closed =>
    { stream := stream1, settlements := [], forwardedReasons := [],
      result := .fulfilled () }
  | .errored =>
    { stream := stream1, settlements := [], forwardedReasons := [],
      result := .rejected stream1.storedError }
  | .readable =>
    let closed := ReadableStreamClose (α := α) stream1
    let sourceCancelOutcome := cancelAlg reason
    { stream := closed.1, settlements := closed.2,
      forwardedReasons := [reason],
      result := transformPromiseWithNoop sourceCancelOutcome }

/-- Modelled from the spec: `ReadableStreamDefaultReaderRead`
(src/lib/readable-stream/default-reader.ts is not under src/).  Per
the spec, reading while closed immediately fulfills with an
end-of-sequence marker and reading while errored immediately rejects
with `storedError`; only in the readable state does the read take the
pull path through the controller, whose behavior is supplied as the
parameter `pullCase`.  The boolean of each pair records whether the
producer's pull path was taken. -/
def ReadableStreamDefaultReaderRead (stream : RStream ε)
    (pullCase : Settled ε (ReadResultRec α) × Bool) :
    Settled ε (ReadResultRec α) × Bool :=
  match stream.state with
  | .closed => (.fulfilled { value := none, done := true }, false)
  | .errored => (.rejected stream.storedError, false)
  | .readable => pullCase

/-- The `type` field of an underlying source: `undefined`, or some
other JavaScript value together with its `String(...)` conversion
(the constructor only inspects the value through `String(type)` and
`type === undefined`). -/
inductive SourceTypeField where
  | undef
  | jsval (stringRep : String)
deriving DecidableEq, Repr

/-- `String(type)` for a `type` field: `String(undefined)` is the
string "undefined". -/
def sourceTypeToString : SourceTypeField → String
  | .undef => "undefined"
  | .jsval s => s

/-- The queuing-strategy argument as the constructor reads it: the
optional `size` function and the optional `highWaterMark`. -/
structure CtorStrategy (α : Type u) where
  size : Option (α → JSNum)
  highWaterMark : Option JSNum

/-- The configuration errors the constructor can raise synchronously. -/
inductive CtorError where
  | byteStreamSizeRangeError
  | invalidTypeError
  | hwmRangeError
deriving DecidableEq, Repr

/-- What the constructor sets up on success: a byte controller with
its high-water mark, or a default controller with its high-water mark
and size algorithm. -/
inductive CtorOutcome (α : Type u) where
  | byteController (hwm : JSNum)
  | defaultController (hwm : JSNum) (sizeAlgorithm : α → JSNum)

/-- Modelled from the spec: `ValidateAndNormalizeHighWaterMark`
(src/lib/helpers is not under src/).  The spec requires a high-water
mark to be a non-negative number, so NaN or a value below zero is a
configuration error; any other number passes through. -/
def ValidateAndNormalizeHighWaterMark (hwm : JSNum) :
    Except CtorError JSNum :=
  if NumberIsNaN hwm then .error .hwmRangeError
  else if jsLt hwm (.finite 0) then .error .hwmRangeError
  else .ok hwm

/-- Modelled from the spec: `MakeSizeAlgorithmFromSizeFunction`
(src/lib/helpers is not under src/).  Per the spec, `size` defaults
to the constant-1 function when omitted. -/
def MakeSizeAlgorithmFromSizeFunction {α : Type u} (size : Option (α → JSNum)) :
    α → JSNum :=
  match size with
  | none => fun _ => .finite 1
  | some f => f

/-- The `ReadableStream` constructor's dispatch on the underlying
source's `type` and the strategy: `String(type) === 'bytes'` forbids
a `size` function and defaults the high-water mark to 0;
`type === undefined` defaults the high-water mark to 1 and the size
algorithm to constant 1; any other type is a synchronous type
error. -/
def ReadableStreamConstructor (type : SourceTypeField)
    (strategy : CtorStrategy α) : Except CtorError (CtorOutcome α) :=
  let size := strategy.size
  let typeString := sourceTypeToString type
  if typeString = "bytes" then
    if size.isSome then .error .byteStreamSizeRangeError
    else
      let highWaterMark := strategy.highWaterMark.getD (.finite 0)
      (ValidateAndNormalizeHighWaterMark highWaterMark).map
        fun hwm => .byteController hwm
  else if type = .undef then
    let sizeAlgorithm := MakeSizeAlgorithmFromSizeFunction size
    let highWaterMark := strategy.highWaterMark.getD (.finite 1)
    (ValidateAndNormalizeHighWaterMark highWaterMark).map
      fun hwm => .defaultController hwm sizeAlgorithm
  else .error .invalidTypeError

/-- A writable stream as the pipe lock checks see it: whether a
writer is attached. -/
structure WStream where
  locked : Bool
deriving DecidableEq, Repr

/-- `IsWritableStreamLocked`. -/
def IsWritableStreamLocked (dest : WStream) : Bool :=
  dest.locked

/-- The usage errors the pipe entry points can report. -/
inductive PipeErrKind where
  | signalNotAbortSignal
  | sourceLocked
  | destLocked
deriving DecidableEq, Repr

/-- How a JavaScript call delivers its result: a synchronous throw,
or a normal return of a value. -/
inductive CallOutcome (ε : Type u) (α : Type v) where
  | threw (e : ε)
  | returned (a : α)
deriving DecidableEq, Repr

/-- What `pipeTo` returns: a promise rejected up front with a usage
error, or the promise of a started pipe operation
(`ReadableStreamPipeTo` was invoked). -/
inductive PipeToReturn where
  | rejectedPromise (e : PipeErrKind)
  | pipeStarted
deriving DecidableEq, Repr

/-- The pipe options after boolean coercion, with the `signal` field
kept as presence plus an is-AbortSignal flag. -/
structure PipeOpts where
  preventAbort : Bool
  preventCancel : Bool
  preventClose : Bool
  signalPresent : Bool
  signalIsAbortSignal : Bool
deriving DecidableEq, Repr

/-- `ReadableStream.prototype.pipeTo` on a genuine readable stream
and a genuine writable destination: an invalid signal, a locked
source, or a locked destination each make it RETURN an
already-rejected promise (it never throws); otherwise it invokes
`ReadableStreamPipeTo` and returns that pipe's promise. -/
def pipeTo (source : RStream ε) (dest : WStream) (opts : PipeOpts) :
    CallOutcome PipeErrKind PipeToReturn :=
  if opts.signalPresent && !opts.signalIsAbortSignal then
    .returned (.rejectedPromise .signalNotAbortSignal)
  else if IsReadableStreamLocked source then
    .returned (.rejectedPromise .sourceLocked)
  else if IsWritableStreamLocked dest then
    .returned (.rejectedPromise .destLocked)
  else .returned .pipeStarted

/-- `ReadableStream.prototype.pipeThrough` on a genuine readable
stream and a genuine `{ readable, writable }` pair: an invalid
signal, a locked source, or a locked transform-writable each make it
THROW synchronously; otherwise it invokes `ReadableStreamPipeTo` and
returns the pair's readable side (represented by `()`). -/
def pipeThrough (source : RStream ε) (transformWritable : WStream)
    (opts : PipeOpts) : CallOutcome PipeErrKind Unit :=
  if opts.signalPresent && !opts.signalIsAbortSignal then
    .threw .signalNotAbortSignal
  else if IsReadableStreamLocked source then
    .threw .sourceLocked
  else if IsWritableStreamLocked transformWritable then
    .threw .destLocked
  else .returned ()

/-- The mutable state shared by the two cancel algorithms of
`ReadableStreamTee`: the per-branch cancelled flags and recorded
reasons (initially `undefined`, modelled as `none`), the log of
composite reasons passed to `ReadableStreamCancel` on the source, and
the value with which the shared `cancelPromise` has been resolved
(`none` while it is still pending; once resolved it adopts the result
of cancelling the source with the recorded composite reason). -/
structure TeeCancelState (α : Type u) where
  canceled1 : Bool
  canceled2 : Bool
  reason1 : Option α
  reason2 : Option α
  sourceCancelCalls : List (List (Option α))
  cancelPromiseResolvedWith : Option (List (Option α))
deriving DecidableEq, Repr

/-- The tee cancel state right after `ReadableStreamTee` sets up its
closure variables. -/
def TeeCancelState.initial : TeeCancelState α :=
  { canceled1 := false, canceled2 := false, reason1 := none,
    reason2 := none, sourceCancelCalls := [],
    cancelPromiseResolvedWith := none }

/-- What a tee branch's cancel algorithm returns: always the one
shared `cancelPromise`. -/
inductive TeeCancelReturn where
  | sharedCancelPromise
deriving DecidableEq, Repr

/-- `cancel1Algorithm` of `ReadableStreamTee`: records branch 1's
reason and marks it cancelled; only if branch 2 has already cancelled
does it build the composite reason `[reason1, reason2]`, invoke
`ReadableStreamCancel` on the source with it, and resolve the shared
`cancelPromise` with that call's result.  It returns the shared
`cancelPromise`. -/
def cancel1Algorithm (reason : α) (s : TeeCancelState α) :
    TeeCancelState α × TeeCancelReturn :=
  let s1 : TeeCancelState α :=
    { s with canceled1 := true, reason1 := some reason }
  if s1.canceled2 then
    let compositeReason := createArrayFromList [s1.reason1, s1.reason2]
    let s2 : TeeCancelState α :=
      { s1 with
        sourceCancelCalls := s1.sourceCancelCalls ++ [compositeReason],
        cancelPromiseResolvedWith := some compositeReason }
    (s2, .sharedCancelPromise)
  else (s1, .sharedCancelPromise)

/-- `cancel2Algorithm` of `ReadableStreamTee`: the mirror image of
`cancel1Algorithm`, with the composite reason still ordered
`[reason1, reason2]` (branch 1's reason first). -/
def cancel2Algorithm (reason : α) (s : TeeCancelState α) :
    TeeCancelState α × TeeCancelReturn :=
  let s1 : TeeCancelState α :=
    { s with canceled2 := true, reason2 := some reason }
  if s1.canceled1 then
    let compositeReason := createArrayFromList [s1.reason1, s1.reason2]
    let s2 : TeeCancelState α :=
      { s1 with
        sourceCancelCalls := s1.sourceCancelCalls ++ [compositeReason],
        cancelPromiseResolvedWith := some compositeReason }
    (s2, .sharedCancelPromise)
  else (s1, .sharedCancelPromise)

/-- An operation performed on a tee branch's default controller. -/
inductive CtrlOp (α : Type u) where
  | enqueueOp (v : α)
  | closeOp
deriving DecidableEq, Repr

/-- The mutable state seen by the tee's unified pull algorithm: the
in-flight-read guard, the per-branch cancelled flags, and the
operation log of each branch's controller. -/
structure TeePullState (α : Type u) where
  reading : Bool
  canceled1 : Bool
  canceled2 : Bool
  ctrl1 : List (CtrlOp α)
  ctrl2 : List (CtrlOp α)
deriving DecidableEq, Repr

/-- `pullAlgorithm` of `ReadableStreamTee` at the moment of
invocation: if a read is already in flight it returns a resolved
promise without doing anything; otherwise it sets the guard and
issues one read against the shared reader.  The boolean reports
whether a new read was issued. -/
def teePullAlgorithm (s : TeePullState α) : TeePullState α × Bool :=
  if s.reading then (s, false)
  else ({ s with reading := true }, true)

/-- The fulfillment value of a read against the shared reader: a
chunk, or the end-of-sequence marker (`done === true`). -/
inductive TeeReadResult (α : Type u) where
  | chunk (v : α)
  | endOfSequence
deriving DecidableEq, Repr

/-- The reaction of the tee's pull algorithm when its in-flight read
fulfills: it clears the guard; on end-of-sequence it closes each
branch's controller whose branch is not cancelled; on a chunk it
enqueues that same chunk to each branch's controller whose branch is
not cancelled. -/
def teeReadFulfilled (s : TeePullState α) (result : TeeReadResult α) :
    TeePullState α :=
  let s0 : TeePullState α := { s with reading := false }
  match result with
  | .endOfSequence =>
    let s1 : TeePullState α :=
      if s0.canceled1 = false then
        { s0 with ctrl1 := s0.ctrl1 ++ [.closeOp] }
      else s0
    if s1.canceled2 = false then
      { s1 with ctrl2 := s1.ctrl2 ++ [.closeOp] }
    else s1
  | .chunk v =>
    let s1 : TeePullState α :=
      if s0.canceled1 = false then
        { s0 with ctrl1 := s0.ctrl1 ++ [.enqueueOp v] }
      else s0
    if s1.canceled2 = false then
      { s1 with ctrl2 := s1.ctrl2 ++ [.enqueueOp v] }
    else s1

/-! ## Theorems -/

/-- C1: in the teeing algorithm, for every pair of cancellation
reasons `x` and `y`, cancelling one branch alone (in either order)
never invokes `ReadableStreamCancel` on the source; once both
branches have cancelled, the source is cancelled exactly once with
the composite reason `[x, y]` (branch 1's reason first, regardless of
which branch cancelled last), the shared cancel promise is resolved
with that single call's result, and both branches' cancel calls
return the one shared cancel promise. -/
theorem tee_cancel_composite_once (α : Type) (x y : α) :
    ((cancel1Algorithm x (TeeCancelState.initial)).1.sourceCancelCalls = []) ∧
    ((cancel2Algorithm y (TeeCancelState.initial)).1.sourceCancelCalls = []) ∧
    ((cancel2Algorithm y (cancel1Algorithm x (TeeCancelState.initial)).1).1.sourceCancelCalls
        = [[some x, some y]]) ∧
    ((cancel2Algorithm y (cancel1Algorithm x (TeeCancelState.initial)).1).1.cancelPromiseResolvedWith
        = some [some x, some y]) ∧
    ((cancel1Algorithm x (cancel2Algorithm y (TeeCancelState.initial)).1).1.sourceCancelCalls
        = [[some x, some y]]) ∧
    ((cancel1Algorithm x (cancel2Algorithm y (TeeCancelState.initial)).1).1.cancelPromiseResolvedWith
        = some [some x, some y]) ∧
    ((cancel1Algorithm x (TeeCancelState.initial (α := α))).2
        = (cancel2Algorithm y (cancel1Algorithm x (TeeCancelState.initial)).1).2) := by
  refine ⟨rfl, rfl, rfl, rfl, rfl, rfl, rfl⟩

/-- C2: the tee's unified pull algorithm issues no new read while one
is in flight (and issues exactly one when none is); when the
in-flight read fulfills with a chunk, that same chunk is enqueued to
each branch's controller whose branch is not cancelled and a
cancelled branch's controller is left untouched; when it fulfills
with the end-of-sequence marker, each not-yet-cancelled branch's
controller is closed and a cancelled branch's controller is left
untouched. -/
theorem tee_pull_single_flight_fanout (α : Type) (s : TeePullState α) (v : α) :
    (s.reading = true → teePullAlgorithm s = (s, false)) ∧
    (s.reading = false → teePullAlgorithm s = ({ s with reading := true }, true)) ∧
    ((teeReadFulfilled s (.chunk v)).ctrl1
        = if s.canceled1 then s.ctrl1 else s.ctrl1 ++ [.enqueueOp v]) ∧
    ((teeReadFulfilled s (.chunk v)).ctrl2
        = if s.canceled2 then s.ctrl2 else s.ctrl2 ++ [.enqueueOp v]) ∧
    ((teeReadFulfilled s .endOfSequence).ctrl1
        = if s.canceled1 then s.ctrl1 else s.ctrl1 ++ [.closeOp]) ∧
    ((teeReadFulfilled s .endOfSequence).ctrl2
        = if s.canceled2 then s.ctrl2 else s.ctrl2 ++ [.closeOp]) := by
  obtain ⟨r, c1, c2, q1, q2⟩ := s
  refine ⟨fun h => ?_, fun h => ?_, ?_, ?_, ?_, ?_⟩
  · have hr : r = true := h
    subst hr; simp [teePullAlgorithm]
  · have hr : r = false := h
    subst hr; simp [teePullAlgorithm]
  all_goals cases c1 <;> cases c2 <;> simp [teeReadFulfilled]

/-- C2 witness: at a concrete state with a read in flight, branch 2
cancelled, and one chunk arriving, the pull algorithm issues no read
and only branch 1's controller receives the chunk. -/
theorem tee_pull_single_flight_fanout_witness :
    (true = true → teePullAlgorithm
        (⟨true, false, true, [], []⟩ : TeePullState Nat)
        = (⟨true, false, true, [], []⟩, false)) ∧
    (true = false → teePullAlgorithm
        (⟨true, false, true, [], []⟩ : TeePullState Nat)
        = ({ (⟨true, false, true, [], []⟩ : TeePullState Nat) with reading := true }, true)) ∧
    ((teeReadFulfilled (⟨true, false, true, [], []⟩ : TeePullState Nat) (.chunk 7)).ctrl1
        = if false then [] else [] ++ [.enqueueOp 7]) ∧
    ((teeReadFulfilled (⟨true, false, true, [], []⟩ : TeePullState Nat) (.chunk 7)).ctrl2
        = if true then [] else [] ++ [.enqueueOp 7]) ∧
    ((teeReadFulfilled (⟨true, false, true, [], []⟩ : TeePullState Nat) .endOfSequence).ctrl1
        = if false then [] else [] ++ [.closeOp]) ∧
    ((teeReadFulfilled (⟨true, false, true, [], []⟩ : TeePullState Nat) .endOfSequence).ctrl2
        = if true then [] else [] ++ [.closeOp]) :=
  tee_pull_single_flight_fanout Nat ⟨true, false, true, [], []⟩ 7

/-- C3: closing a readable stream whose default reader holds the
pending read requests `ids` fulfills them all, in issue order, each
with `{ value: undefined, done: true }`, empties the pending-request
queue, resolves the reader's closed promise, and a read issued
against the now-closed stream fulfills with the same end-of-sequence
result without taking the producer's pull path. -/
theorem close_fulfills_pending_reads (ε α : Type) (e0 : ε) (d fac : Bool)
    (ids : List Nat) (pullCase : Settled ε (ReadResultRec α) × Bool) :
    ((ReadableStreamClose (α := α)
        ⟨.readable, e0, d, some (.default ⟨ids, .pending, fac⟩)⟩).2
      = ids.map fun id => .fulfilled id ⟨none, true⟩) ∧
    ((ReadableStreamClose (α := α)
        ⟨.readable, e0, d, some (.default ⟨ids, .pending, fac⟩)⟩).1
      = ⟨.closed, e0, d, some (.default ⟨[], .resolvedUndef, fac⟩)⟩) ∧
    (ReadableStreamDefaultReaderRead
        (ReadableStreamClose (α := α)
          ⟨.readable, e0, d, some (.default ⟨ids, .pending, fac⟩)⟩).1
        pullCase
      = (.fulfilled ⟨none, true⟩, false)) :=
  ⟨rfl, rfl, rfl⟩

/-- C4: erroring a readable stream with cause `e` sets its state to
errored with `storedError = e`, rejects every pending read request
(default reader) or read-into request (BYOB reader) with that same
`e` in issue order, empties the pending-request queue, and rejects
the reader's closed promise with `e`. -/
theorem error_rejects_all_pending (ε α : Type) (e0 e : ε) (d fac : Bool)
    (ids : List Nat) :
    ((ReadableStreamError (α := α)
        ⟨.readable, e0, d, some (.default ⟨ids, .pending, fac⟩)⟩ e).2
      = ids.map fun id => .rejected id e) ∧
    ((ReadableStreamError (α := α)
        ⟨.readable, e0, d, some (.default ⟨ids, .pending, fac⟩)⟩ e).1
      = ⟨.errored, e, d, some (.default ⟨[], .rejected e, fac⟩)⟩) ∧
    ((ReadableStreamError (α := α)
        ⟨.readable, e0, d, some (.byob ⟨ids, .pending⟩)⟩ e).2
      = ids.map fun id => .rejected id e) ∧
    ((ReadableStreamError (α := α)
        ⟨.readable, e0, d, some (.byob ⟨ids, .pending⟩)⟩ e).1
      = ⟨.errored, e, d, some (.byob ⟨[], .rejected e⟩)⟩) :=
  ⟨rfl, rfl, rfl, rfl⟩

/-- C5: cancelling a stream in the readable state marks it closed,
forwards the reason to the controller's cancel algorithm exactly
once, performs the close's settlements of pending requests, and its
returned promise fulfills with undefined whenever the algorithm's
outcome is a fulfillment (whatever its value) and rejects with the
algorithm's cause whenever its outcome is a rejection. -/
theorem cancel_closes_then_forwards (ε α ρ υ : Type) (s : RStream ε)
    (reason : ρ) (alg : ρ → Settled ε υ) (h : s.state = .readable) :
    ((ReadableStreamCancel (α := α) s reason alg).stream.state = .closed) ∧
    ((ReadableStreamCancel (α := α) s reason alg).forwardedReasons = [reason]) ∧
    ((ReadableStreamCancel (α := α) s reason alg).settlements
      = (ReadableStreamClose { s with disturbed := true }).2) ∧
    ((ReadableStreamCancel (α := α) s reason alg).result
      = match alg reason with
        | .fulfilled _ => .fulfilled ()
        | .rejected e => .rejected e) := by
  obtain ⟨st, e0, d, rd⟩ := s
  cases h
  refine ⟨?_, rfl, rfl, ?_⟩
  · cases rd with
    | none => rfl
    | some r => cases r <;> rfl
  · show transformPromiseWithNoop (alg reason) = _
    cases alg reason <;> rfl

/-- C5 witness: cancelling a concrete readable stream whose cancel
algorithm fulfills with the value 42 closes it, forwards the reason
once, and the cancel result is fulfilled with undefined. -/
theorem cancel_closes_then_forwards_witness :
    ((ReadableStreamCancel (ε := Unit) (α := Unit) (υ := Nat)
        ⟨.readable, (), false, none⟩ "why"
        (fun _ => .fulfilled 42)).stream.state = .closed) ∧
    ((ReadableStreamCancel (ε := Unit) (α := Unit) (υ := Nat)
        ⟨.readable, (), false, none⟩ "why"
        (fun _ => .fulfilled 42)).forwardedReasons = ["why"]) ∧
    ((ReadableStreamCancel (ε := Unit) (α := Unit) (υ := Nat)
        ⟨.readable, (), false, none⟩ "why"
        (fun _ => .fulfilled 42)).settlements
      = (ReadableStreamClose (⟨.readable, (), true, none⟩ : RStream Unit)).2) ∧
    ((ReadableStreamCancel (ε := Unit) (α := Unit) (υ := Nat)
        ⟨.readable, (), false, none⟩ "why"
        (fun _ => .fulfilled 42)).result
      = match (fun _ : String => Settled.fulfilled (ε := Unit) (42 : Nat)) "why" with
        | .fulfilled _ => .fulfilled ()
        | .rejected e => .rejected e) :=
  cancel_closes_then_forwards Unit Unit String Nat
    ⟨.readable, (), false, none⟩ "why" (fun _ => .fulfilled 42) rfl

/-- C6: the constructor treats a `size` function on a byte stream as
a synchronous configuration error, defaults an omitted high-water
mark to 0 for byte streams and to 1 for ordinary streams, defaults an
omitted `size` to the constant-1 algorithm for ordinary streams, and
rejects any type other than bytes/undefined synchronously. -/
theorem ctor_type_dispatch_defaults (α : Type) (f : α → JSNum)
    (hwm : Option JSNum) (sz : Option (α → JSNum)) (s : String)
    (hs : s ≠ "bytes") :
    (ReadableStreamConstructor (.jsval "bytes") ⟨some f, hwm⟩
      = .error .byteStreamSizeRangeError) ∧
    (ReadableStreamConstructor (α := α) (.jsval "bytes") ⟨none, none⟩
      = .ok (.byteController (.finite 0))) ∧
    (ReadableStreamConstructor (α := α) .undef ⟨none, none⟩
      = .ok (.defaultController (.finite 1) fun _ => .finite 1)) ∧
    (ReadableStreamConstructor (.jsval s) ⟨sz, hwm⟩
      = .error .invalidTypeError) := by
  refine ⟨rfl, rfl, rfl, ?_⟩
  simp [ReadableStreamConstructor, sourceTypeToString, hs]

/-- C6 witness: at the concrete type string "x", a constant-1 size
function and an omitted high-water mark, the four constructor
dispatch facts hold. -/
theorem ctor_type_dispatch_defaults_witness :
    (("x" : String) ≠ "bytes") ∧
    ((ReadableStreamConstructor (α := Unit) (.jsval "bytes")
        ⟨some fun _ => .finite 1, none⟩
      = .error .byteStreamSizeRangeError) ∧
    (ReadableStreamConstructor (α := Unit) (.jsval "bytes") ⟨none, none⟩
      = .ok (.byteController (.finite 0))) ∧
    (ReadableStreamConstructor (α := Unit) .undef ⟨none, none⟩
      = .ok (.defaultController (.finite 1) fun _ => .finite 1)) ∧
    (ReadableStreamConstructor (α := Unit) (.jsval "x") ⟨none, none⟩
      = .error .invalidTypeError)) :=
  ⟨by decide,
   ctor_type_dispatch_defaults Unit (fun _ => .finite 1) none none "x" (by decide)⟩

/-- C7 counterexample: on a concrete locked source, `pipeTo` does NOT
surface the already-locked usage error synchronously (it does not
throw any of the usage errors); it instead returns an
already-rejected promise carrying that error — i.e. the lock
violation is delivered through the returned future, contradicting the
claim's dichotomy. -/
theorem pipeTo_locked_returns_rejected_promise :
    (pipeTo (⟨.readable, (), false, some (.default ⟨[], .pending, true⟩)⟩ : RStream Unit)
        ⟨false⟩ ⟨false, false, false, false, true⟩
      = .returned (.rejectedPromise .sourceLocked)) ∧
    (pipeTo (⟨.readable, (), false, some (.default ⟨[], .pending, true⟩)⟩ : RStream Unit)
        ⟨false⟩ ⟨false, false, false, false, true⟩
      ≠ .threw .sourceLocked) ∧
    (pipeTo (⟨.readable, (), false, some (.default ⟨[], .pending, true⟩)⟩ : RStream Unit)
        ⟨false⟩ ⟨false, false, false, false, true⟩
      ≠ .threw .destLocked) ∧
    (pipeTo (⟨.readable, (), false, some (.default ⟨[], .pending, true⟩)⟩ : RStream Unit)
        ⟨false⟩ ⟨false, false, false, false, true⟩
      ≠ .threw .signalNotAbortSignal) := by
  decide

/-- C7 amended: with no abort signal supplied, a lock violation is
detected before the pipe operation starts — `pipeThrough` raises it
as a synchronous throw, while `pipeTo` reports it by returning an
already-rejected future; in neither case does `ReadableStreamPipeTo`
run (no data moves). -/
theorem pipe_locked_before_data_moves (ε : Type) (source : RStream ε)
    (dest w : WStream) (opts : PipeOpts)
    (hsig : opts.signalPresent = false) :
    (IsReadableStreamLocked source = true →
      pipeThrough source w opts = .threw .sourceLocked ∧
      pipeTo source dest opts = .returned (.rejectedPromise .sourceLocked)) ∧
    (IsReadableStreamLocked source = false → IsWritableStreamLocked w = true →
      pipeThrough source w opts = .threw .destLocked) ∧
    (IsReadableStreamLocked source = false → IsWritableStreamLocked dest = true →
      pipeTo source dest opts = .returned (.rejectedPromise .destLocked)) ∧
    (IsReadableStreamLocked source = true →
      pipeTo source dest opts ≠ .returned .pipeStarted) := by
  refine ⟨fun h => ⟨?_, ?_⟩, fun h1 h2 => ?_, fun h1 h2 => ?_, fun h => ?_⟩ <;>
    simp [pipeTo, pipeThrough, hsig, *]

/-- C7 amended witness: a concrete locked source with no signal makes
`pipeThrough` throw and `pipeTo` return a rejected promise, and the
pipe never starts. -/
theorem pipe_locked_before_data_moves_witness :
    (pipeThrough (⟨.readable, (), false, some (.default ⟨[], .pending, true⟩)⟩ : RStream Unit)
        ⟨false⟩ ⟨false, false, false, false, true⟩ = .threw .sourceLocked) ∧
    (pipeTo (⟨.readable, (), false, some (.default ⟨[], .pending, true⟩)⟩ : RStream Unit)
        ⟨false⟩ ⟨false, false, false, false, true⟩
      = .returned (.rejectedPromise .sourceLocked)) ∧
    (pipeTo (⟨.readable, (), false, some (.default ⟨[], .pending, true⟩)⟩ : RStream Unit)
        ⟨false⟩ ⟨false, false, false, false, true⟩
      ≠ .returned .pipeStarted) :=
  ⟨((pipe_locked_before_data_moves Unit
      ⟨.readable, (), false, some (.default ⟨[], .pending, true⟩)⟩
      ⟨false⟩ ⟨false⟩ ⟨false, false, false, false, true⟩ rfl).1 rfl).1,
   ((pipe_locked_before_data_moves Unit
      ⟨.readable, (), false, some (.default ⟨[], .pending, true⟩)⟩
      ⟨false⟩ ⟨false⟩ ⟨false, false, false, false, true⟩ rfl).1 rfl).2,
   (pipe_locked_before_data_moves Unit
      ⟨.readable, (), false, some (.default ⟨[], .pending, true⟩)⟩
      ⟨false⟩ ⟨false⟩ ⟨false, false, false, false, true⟩ rfl).2.2.2 rfl⟩

/-- C8 counterexample: `IsNonNegativeNumber` accepts positive
infinity — it returns true at `+Infinity`, where the claim says it
returns false (the code has no finiteness test). -/
theorem isNonNegativeNumber_accepts_posInf :
    IsNonNegativeNumber (.num .posInf) = true := by
  decide

/-- C8 amended: the predicate accepts exactly the numbers that are
neither NaN nor below zero — positive infinity included: for a number
it equals not-NaN-and-not-negative, it is true at `+Infinity`, and it
is false at NaN, at `-Infinity`, at every negative finite number, and
at every non-number. -/
theorem isNonNegativeNumber_amended (n : JSNum) (q : ℚ) (hq : q < 0)
    (w : JSVal) (hw : jsTypeofIsNumber w = false) :
    (IsNonNegativeNumber (.num n)
      = (!NumberIsNaN n && !jsLt n (.finite 0))) ∧
    IsNonNegativeNumber (.num .posInf) = true ∧
    IsNonNegativeNumber (.num .nan) = false ∧
    IsNonNegativeNumber (.num .negInf) = false ∧
    IsNonNegativeNumber (.num (.finite q)) = false ∧
    IsNonNegativeNumber w = false := by
  have key : ∀ a b : Bool,
      (if a = true then false else if b = true then false else true)
        = (!a && !b) := by decide
  refine ⟨key (NumberIsNaN n) (jsLt n (.finite 0)), rfl, rfl, rfl, ?_, ?_⟩
  · simp [IsNonNegativeNumber, NumberIsNaN, jsLt, hq]
  · cases w <;> simp_all [IsNonNegativeNumber, jsTypeofIsNumber]

/-- C8 amended witness: concretely, `-1` is rejected and the string
value "1" is rejected, while the general facts hold at `+Infinity`. -/
theorem isNonNegativeNumber_amended_witness :
    ((-1 : ℚ) < 0 ∧ jsTypeofIsNumber (.string "1") = false) ∧
    ((IsNonNegativeNumber (.num .posInf)
      = (!NumberIsNaN .posInf && !jsLt .posInf (.finite 0))) ∧
    IsNonNegativeNumber (.num .posInf) = true ∧
    IsNonNegativeNumber (.num .nan) = false ∧
    IsNonNegativeNumber (.num .negInf) = false ∧
    IsNonNegativeNumber (.num (.finite (-1))) = false ∧
    IsNonNegativeNumber (.string "1") = false) :=
  ⟨⟨by norm_num, rfl⟩,
   isNonNegativeNumber_amended .posInf (-1) (by norm_num) (.string "1") rfl⟩

/-- C9: `ReadableStreamCancel` sets the disturbed flag
unconditionally, in every stream state; on an already-closed stream
it returns a promise fulfilled with undefined, and on an
already-errored stream a promise rejected with the stored error — in
both cases with no request settlements and without forwarding any
reason to the controller's cancel algorithm. -/
theorem cancel_always_disturbs (ε α ρ υ : Type) (s : RStream ε)
    (reason : ρ) (alg : ρ → Settled ε υ) :
    ((ReadableStreamCancel (α := α) s reason alg).stream.disturbed = true) ∧
    (s.state = .closed → ReadableStreamCancel (α := α) s reason alg
      = ⟨{ s with disturbed := true }, [], [], .fulfilled ()⟩) ∧
    (s.state = .errored → ReadableStreamCancel (α := α) s reason alg
      = ⟨{ s with disturbed := true }, [], [], .rejected s.storedError⟩) := by
  obtain ⟨st, e0, d, rd⟩ := s
  refine ⟨?_, fun h => ?_, fun h => ?_⟩
  · cases st
    · cases rd with
      | none => rfl
      | some r => cases r <;> rfl
    · rfl
    · rfl
  · have h2 : st = .closed := h
    subst h2; rfl
  · have h2 : st = .errored := h
    subst h2; rfl

/-- C9 witness: cancelling a concrete closed stream and a concrete
errored stream (never read from: disturbed is false going in) sets
disturbed, settles nothing, forwards nothing, and yields the
fulfilled/rejected result respectively. -/
theorem cancel_always_disturbs_witness :
    ((ReadableStreamCancel (ε := Nat) (α := Unit) (υ := Unit)
        ⟨.closed, 0, false, none⟩ 5 (fun _ : Nat => .fulfilled ()))
      = ⟨⟨.closed, 0, true, none⟩, [], [], .fulfilled ()⟩) ∧
    ((ReadableStreamCancel (ε := Nat) (α := Unit) (υ := Unit)
        ⟨.errored, 9, false, none⟩ 5 (fun _ : Nat => .fulfilled ()))
      = ⟨⟨.errored, 9, true, none⟩, [], [], .rejected 9⟩) :=
  ⟨(cancel_always_disturbs Nat Unit Nat Unit
      ⟨.closed, 0, false, none⟩ 5 (fun _ => .fulfilled ())).2.1 rfl,
   (cancel_always_disturbs Nat Unit Nat Unit
      ⟨.errored, 9, false, none⟩ 5 (fun _ => .fulfilled ())).2.2 rfl⟩

/-- C10: every buffer whose byte length is zero — in particular a
genuinely empty, never-transferred one — is classified as detached by
`IsDetachedBuffer`, and `CanTransferArrayBuffer` returns false on
it. -/
theorem empty_buffer_reads_as_detached (b : ArrayBufferM)
    (h : b.byteLength = 0) :
    IsDetachedBuffer b = true ∧ CanTransferArrayBuffer b = false := by
  simp [IsDetachedBuffer, CanTransferArrayBuffer, h]

/-- C10 witness: the concrete empty buffer is detached and not
transferable at this interface. -/
theorem empty_buffer_reads_as_detached_witness :
    (⟨0⟩ : ArrayBufferM).byteLength = 0 ∧
    (IsDetachedBuffer ⟨0⟩ = true ∧ CanTransferArrayBuffer ⟨0⟩ = false) :=
  ⟨rfl, empty_buffer_reads_as_detached ⟨0⟩ rfl⟩

end WebStreams
